import Mathlib

/-!
# Formal model of `bridge-vaults-exporter`

A shallow embedding, in Lean 4, of the core of the `bridge-vaults-exporter`
service (`src/service.rs`, `src/printed_num.rs`, `src/config.rs`).

Modelling conventions:
* Ethereum addresses (`web3::ethabi::Address`) are opaque identifiers; we model
  them as `String` (their configured textual form). Nothing in the verified
  properties depends on the 160-bit structure of an address.
* `web3::ethabi::Uint` (a 256-bit unsigned integer) is modelled as `Nat`;
  where a claim speaks about 256-bit values we add the bound `< 2 ^ 256`
  explicitly. `Uint::to_string()` renders the decimal digit string of the
  value, which is exactly `Nat.repr`.
* `u32` values (chain ids, timestamps, rounds, relay counts) are modelled as
  `Nat`; the only arithmetic performed on them by the program is the division
  `now / 86400`, which cannot overflow.
* Fallible contract calls (`Api::get_*`, all `Result<_, anyhow::Error>` in the
  source) are modelled as `Except CallErr _` values supplied as inputs of a
  tick: the network response of each call site is an input of the model.
* In-place mutation through `&self` (the atomics of `BridgeListener`, the
  `RwLock<VaultState>`, the mutex-protected sets of `InitializationContext`)
  is modelled by explicit state passing: a Rust method mutating `self` and
  returning `Result<()>` becomes a Lean function returning the pair of the
  `Except` result and the post-state.
* The `HashSet` of registered vaults and the `HashMap` of token groups are
  modelled as lists with set/map semantics (the program only inserts fresh
  keys, so no duplicate keys ever arise).
-/

set_option autoImplicit false

namespace BridgeVaultsExporter

/-- Error type covering the failure modes of a contract call
(`anyhow::Error` in the source: transport failures and
`ListenerError::InvalidOutput` decode failures). -/
inductive CallErr where
  | transport (msg : String)
  | invalidOutput
  deriving DecidableEq, Repr

instance {ε α : Type} [DecidableEq ε] [DecidableEq α] : DecidableEq (Except ε α) := fun a b =>
  match a, b with
  | .ok x, .ok y =>
    if h : x = y then .isTrue (by rw [h]) else .isFalse (by intro hc; cases hc; exact h rfl)
  | .ok _, .error _ => .isFalse (by intro hc; cases hc)
  | .error _, .ok _ => .isFalse (by intro hc; cases hc)
  | .error x, .error y =>
    if h : x = y then .isTrue (by rw [h]) else .isFalse (by intro hc; cases hc; exact h rfl)

/-- `Except.isOk` as used below (avoids relying on library helpers). -/
def exceptOk {ε α : Type} : Except ε α → Bool
  | .ok _ => true
  | .error _ => false

/-- `const fn withdrawal_period(now: u32) -> u32 { now / 86400 }`
(src/service.rs). -/
def withdrawal_period (now : Nat) : Nat :=
  now / 86400

/-- `struct VaultState` (src/service.rs): the snapshot published by a vault
refresher. All big integers are carried as decimal strings. -/
structure VaultState where
  updated_at : Nat
  balance : String
  total_assets : String
  withdraw_limit : String
  withdraw_total : String
  withdraw_considered : String
  deriving DecidableEq, Repr

/-- `#[derive(Default)]` for `VaultState`: `updated_at == 0` is the sentinel
for "never yet refreshed". -/
instance : Inhabited VaultState :=
  ⟨⟨0, "", "", "", "", ""⟩⟩

/-- The network responses observed by one tick of `VaultListener::update`:
`now()` plus the four contract call sites. The withdrawal-period statistics
call takes the period id as argument, so it is a function of that id. -/
structure VaultTick where
  now : Nat
  balance : Except CallErr Nat
  total_assets : Except CallErr Nat
  withdraw_limit : Except CallErr Nat
  withdrawal_period_stats : Nat → Except CallErr (Nat × Nat)

/-- `VaultListener::update` (src/service.rs): fetch the four values in
sequence, propagating the first failure; only when all succeed is the state
replaced wholesale by a freshly built `VaultState`. The `RwLock` write happens
only in the success path, so the function returns the new state only through
`.ok`. -/
def VaultListener.update (tick : VaultTick) : Except CallErr VaultState := do
  let updated_at := tick.now
  let balance ← tick.balance
  let total_assets ← tick.total_assets
  let withdraw_limit ← tick.withdraw_limit
  let (withdraw_total, withdraw_considered) ←
    tick.withdrawal_period_stats (withdrawal_period updated_at)
  pure {
    updated_at
    balance := Nat.repr balance
    total_assets := Nat.repr total_assets
    withdraw_limit := Nat.repr withdraw_limit
    withdraw_total := Nat.repr withdraw_total
    withdraw_considered := Nat.repr withdraw_considered
  }

/-- The state visible in `self.state` after one tick of the vault refresher:
the fresh snapshot on success, the previous snapshot untouched on failure
(the `?` operator returns before the `*self.state.write() = ...` statement). -/
def VaultListener.published (tick : VaultTick) (st : VaultState) : VaultState :=
  match VaultListener.update tick with
  | .ok st' => st'
  | .error _ => st

/-- `struct InitializationContext` (src/service.rs). -/
structure InitializationContext where
  has_bridge_proxy : Bool
  unique_vaults : List (Nat × String)
  token_groups : List ((Nat × String) × String)
  deriving DecidableEq, Repr

instance : Inhabited InitializationContext :=
  ⟨⟨false, [], []⟩⟩

/-- Lookup in the token-group map (`HashMap::get` semantics on a list with
unique keys). -/
def findGroup : List ((Nat × String) × String) → (Nat × String) → Option String
  | [], _ => none
  | (k, g) :: rest, key => if k = key then some g else findGroup rest key

/-- `InitializationContext::set_has_bridge_proxy` (src/service.rs):
`AtomicBool::swap(true)`; fails if the flag was already set. -/
def InitializationContext.set_has_bridge_proxy (ctx : InitializationContext) :
    Except String Unit × InitializationContext :=
  if ctx.has_bridge_proxy then
    (.error "Duplicate bridge proxy", { ctx with has_bridge_proxy := true })
  else
    (.ok (), { ctx with has_bridge_proxy := true })

/-- `InitializationContext::add_vault` (src/service.rs): `HashSet::insert` on
`(chain_id, vault)`; fails (leaving the set unchanged) when the pair is
already present. -/
def InitializationContext.add_vault (ctx : InitializationContext)
    (chain_id : Nat) (vault : String) : Except String Unit × InitializationContext :=
  if (chain_id, vault) ∈ ctx.unique_vaults then
    (.error "Duplicate vault entry", ctx)
  else
    (.ok (), { ctx with unique_vaults := (chain_id, vault) :: ctx.unique_vaults })

/-- `InitializationContext::add_token_group` (src/service.rs): on a vacant
entry record the group; on an occupied entry with an equal group succeed
without change; on an occupied entry with a different group fail without
change. -/
def InitializationContext.add_token_group (ctx : InitializationContext)
    (chain_id : Nat) (token : String) (group : String) :
    Except String Unit × InitializationContext :=
  match findGroup ctx.token_groups (chain_id, token) with
  | none =>
    (.ok (), { ctx with token_groups := ((chain_id, token), group) :: ctx.token_groups })
  | some recorded =>
    if recorded = group then (.ok (), ctx)
    else (.error "Inconsistent token group", ctx)

/-- The mutable fields of `struct BridgeListener` (src/service.rs):
`current_round: AtomicU32`, `relay_count: AtomicU32`. -/
structure BridgeState where
  current_round : Nat
  relay_count : Nat
  deriving DecidableEq, Repr

/-- The network responses observed by one tick of `BridgeListener::update`:
the `lastRound()` call and the `rounds(round)` relay-count call (a function of
the round it is queried for). -/
structure BridgeTick where
  last_round : Except CallErr Nat
  relay_count_for : Nat → Except CallErr Nat

/-- `BridgeListener::update` (src/service.rs). Fetch the current round; swap
it into `current_round` (the swap happens before any comparison); if the
previous value equals the fetched one, stop. Otherwise perform the relay-count
call and store its result on success. Returns the tick's `Result<()>`, the
post-state, and the number of relay-count calls performed (0 or 1). -/
def BridgeListener.update (tick : BridgeTick) (st : BridgeState) :
    Except CallErr Unit × BridgeState × Nat :=
  match tick.last_round with
  | .error e => (.error e, st, 0)
  | .ok current_round =>
    let prev := st.current_round
    let st := { st with current_round := current_round }
    if prev = current_round then
      (.ok (), st, 0)
    else
      match tick.relay_count_for current_round with
      | .error e => (.error e, st, 1)
      | .ok relay_count => (.ok (), { st with relay_count := relay_count }, 1)

/-! ## The start latch and the periodic loop

`VaultListener::start_listening` and `BridgeListener::start_listening` share
the same shape:

```
if self.listening.swap(true, Ordering::AcqRel) { return Ok(()); }
self.update().await?;          // immediate refresh; Err propagates, no spawn
tokio::spawn(...loop...);      // exactly one periodic loop
Ok(())
```

We model this generically over the refresher's state type `σ` and its tick
function `upd` (which consumes a tick input of type `ι`, returns the tick's
`Result<()>` and the post-state — for the vault listener a failed tick leaves
the state untouched; for the bridge listener a failed tick may already have
swapped the round). -/

/-- A refresher together with the bookkeeping observable from outside:
whether the `listening` latch is set, and how many periodic loops have been
spawned. -/
structure Refresher (σ : Type) where
  listening : Bool
  loops : Nat
  state : σ

/-- One iteration of the spawned loop body (src/service.rs): run `update`; on
failure only log and keep going with the state `update` left behind. The loop
itself never terminates and never propagates an error. -/
def loopIter {σ ι : Type} (upd : ι → σ → Except CallErr Unit × σ) (t : ι) (s : σ) : σ :=
  (upd t s).2

/-- Run the periodic loop over a finite prefix of its (infinite) tick inputs:
every tick is processed, errors are logged and discarded. Totality of this
function is the model of "a failing tick does not crash the loop". -/
def runLoop {σ ι : Type} (upd : ι → σ → Except CallErr Unit × σ) :
    List ι → σ → σ
  | [], s => s
  | t :: ts, s => runLoop upd ts (loopIter upd t s)

/-- `start_listening` (both listeners, src/service.rs): check-and-set the
latch; if it was already set return `Ok` immediately. Otherwise perform one
immediate refresh, propagating its failure without spawning; on success spawn
exactly one periodic loop. Returns the `Result<()>`, the refresher afterwards,
and the number of `update` invocations this call performed. -/
def startListening {σ ι : Type} (upd : ι → σ → Except CallErr Unit × σ)
    (t : ι) (r : Refresher σ) : Except CallErr Unit × Refresher σ × Nat :=
  if r.listening then
    (.ok (), r, 0)
  else
    let r := { r with listening := true }
    match upd t r.state with
    | (.error e, s') => (.error e, { r with state := s' }, 1)
    | (.ok (), s') => (.ok (), { r with state := s', loops := r.loops + 1 }, 1)

/-- `VaultListener::update` as a state-passing tick function: the published
state is replaced only on success (`VaultListener.published`). -/
def vaultStep (tick : VaultTick) (st : VaultState) : Except CallErr Unit × VaultState :=
  match VaultListener.update tick with
  | .ok st' => (.ok (), st')
  | .error e => (.error e, st)

/-- `BridgeListener::update` as a state-passing tick function (dropping the
call counter). -/
def bridgeStep (tick : BridgeTick) (st : BridgeState) : Except CallErr Unit × BridgeState :=
  let (res, st', _) := BridgeListener.update tick st
  (res, st')

/-! ## Startup (`Service::new` / `Listener::new` / `VaultListener::new`)

Startup resolves each vault's token, registers the vault in the
`InitializationContext`, and registers its optional token group. The RPC
results (chain id, resolved token address) are inputs of the model. The
source runs the per-vault futures concurrently; the registry operations are
serialized by the mutexes, in some arbitrary order. We model one such order —
program order — which suffices for the registry invariants proved below,
since they hold for every interleaving that performs the same multiset of
registry operations. -/

/-- One vault of the startup configuration, with the token address its
`vault.token()` call resolved to (`VaultListener::new`). -/
structure VaultInit where
  address : String
  token : String
  group : Option String
  deriving DecidableEq, Repr

/-- One network of the startup configuration: its fetched chain id, whether a
`bridge_proxy` is configured, and its vaults. -/
structure NetworkInit where
  chain_id : Nat
  bridge : Bool
  vaults : List VaultInit
  deriving DecidableEq, Repr

/-- The `ctx.add_vault(api.chain_id, vault.address)?` loop of
`Listener::new`. -/
def addVaults (chain_id : Nat) :
    InitializationContext → List VaultInit → Except String InitializationContext
  | ctx, [] => .ok ctx
  | ctx, v :: rest =>
    match ctx.add_vault chain_id v.address with
    | (.ok (), ctx') => addVaults chain_id ctx' rest
    | (.error e, _) => .error e

/-- The `ctx.add_token_group(api.chain_id, token, group)?` calls performed by
the `VaultListener::new` futures of one network (skipped when no group is
configured). -/
def addGroups (chain_id : Nat) :
    InitializationContext → List VaultInit → Except String InitializationContext
  | ctx, [] => .ok ctx
  | ctx, v :: rest =>
    match v.group with
    | none => addGroups chain_id ctx rest
    | some g =>
      match ctx.add_token_group chain_id v.token g with
      | (.ok (), ctx') => addGroups chain_id ctx' rest
      | (.error e, _) => .error e

/-- The `BridgeListener::new` registry effect of one network:
`ctx.set_has_bridge_proxy()?` when a bridge proxy is configured. -/
def bridgeInit (ctx : InitializationContext) (b : Bool) :
    Except String InitializationContext :=
  if b then
    match ctx.set_has_bridge_proxy with
    | (.ok _, ctx') => .ok ctx'
    | (.error e, _) => .error e
  else .ok ctx

/-- `Listener::new` restricted to its registry effects: the bridge-proxy
flag, then the vault registrations, then the token-group registrations. -/
def initNetwork (ctx : InitializationContext) (n : NetworkInit) :
    Except String InitializationContext :=
  match bridgeInit ctx n.bridge with
  | .error e => .error e
  | .ok ctx₁ =>
    match addVaults n.chain_id ctx₁ n.vaults with
    | .error e => .error e
    | .ok ctx₂ => addGroups n.chain_id ctx₂ n.vaults

/-- `Service::new` restricted to its registry effects: fold `initNetwork`
over the configured networks, failing on the first error. -/
def initAll : InitializationContext → List NetworkInit → Except String InitializationContext
  | ctx, [] => .ok ctx
  | ctx, n :: rest =>
    match initNetwork ctx n with
    | .ok ctx' => initAll ctx' rest
    | .error e => .error e

/-! ## The snapshot renderer (`Metrics::fmt`, src/service.rs)

`Metrics::fmt` writes the cached `token_decimals` catalogue string and then,
for every listener, the bridge metrics (when present) and the per-vault
metrics, skipping vaults whose `updated_at` is still the `0` sentinel. We
model the emitted stream as a list of metric entries (name, labels, value);
the prometheus line framing performed by `pomfrit` is an external collaborator
of the source and is outside the model. -/

/-- One emitted metric: `begin_metric(name).label(..)...value(v)`. The value
is kept as the exact string the formatter writes. -/
structure MetricEntry where
  name : String
  labels : List (String × String)
  value : String
  deriving DecidableEq, Repr

/-- `struct FullAddress` (src/service.rs): renders an address as
`0x{:x}`. Addresses being opaque strings in this model, it prefixes `0x`. -/
def fullAddress (a : String) : String := "0x" ++ a

/-- `PrintedNum::fmt` (src/printed_num.rs): `f.write_str(self.0)` — the
wrapped decimal string is written as-is, with no numeric conversion. -/
def PrintedNum (s : String) : String := s

/-- `struct TokenInfo` (src/service.rs). -/
structure TokenInfo where
  symbol : String
  decimals : Nat
  deriving DecidableEq, Repr

/-- The render-relevant fields of `struct VaultListener` (src/service.rs). -/
structure VaultListener where
  vault : String
  token : String
  token_info : TokenInfo
  state : VaultState
  deriving DecidableEq, Repr

/-- The render-relevant fields of `struct BridgeListener` (src/service.rs). -/
structure BridgeListener where
  bridge_proxy : String
  state : BridgeState
  deriving DecidableEq, Repr

/-- `struct Listener` (src/service.rs). -/
structure Listener where
  chain_id : Nat
  bridge_listener : Option BridgeListener
  vaults : List VaultListener
  deriving DecidableEq, Repr

/-- The entries `Metrics::fmt` emits for one vault: nothing while
`updated_at == 0`, otherwise the six metrics, with the big-integer values
written through `PrintedNum` (the stored decimal strings, byte-for-byte) and
the withdrawal-period label recomputed from `updated_at`. -/
def renderVault (chain_id : Nat) (v : VaultListener) : List MetricEntry :=
  if v.state.updated_at = 0 then []
  else
    let base := [("chain_id", Nat.repr chain_id), ("vault", fullAddress v.vault),
      ("token", fullAddress v.token)]
    let wp := ("withdrawal_period", Nat.repr (withdrawal_period v.state.updated_at))
    [ ⟨"balance", base, PrintedNum v.state.balance⟩,
      ⟨"total_assets", base, PrintedNum v.state.total_assets⟩,
      ⟨"withdraw_limit_per_period", base, PrintedNum v.state.withdraw_limit⟩,
      ⟨"withdrawal_period_total", base ++ [wp], PrintedNum v.state.withdraw_total⟩,
      ⟨"withdrawal_period_considered", base ++ [wp], PrintedNum v.state.withdraw_considered⟩,
      ⟨"updated_at", [("chain_id", Nat.repr chain_id), ("vault", fullAddress v.vault)],
        Nat.repr v.state.updated_at⟩ ]

/-- The entries `Metrics::fmt` emits for one bridge listener. -/
def renderBridge (b : BridgeListener) : List MetricEntry :=
  [ ⟨"relay_round", [("bridge_proxy", fullAddress b.bridge_proxy)],
      Nat.repr b.state.current_round⟩,
    ⟨"relay_count", [("bridge_proxy", fullAddress b.bridge_proxy)],
      Nat.repr b.state.relay_count⟩ ]

/-- The entries `Metrics::fmt` emits for one listener. -/
def renderListener (l : Listener) : List MetricEntry :=
  (match l.bridge_listener with
    | some b => renderBridge b
    | none => []) ++
  (l.vaults.map (renderVault l.chain_id)).flatten

/-- `Metrics::fmt` (src/service.rs) as a list of emitted entries. The
one-time `token_decimals` catalogue string written before the loop contains
only token-level entries (no vault labels) and is computed once at startup;
it is not part of the per-tick state and is omitted here. -/
def Metrics.render (listeners : List Listener) : List MetricEntry :=
  (listeners.map renderListener).flatten

/-! ## `Service::start_listening` (src/service.rs)

For each listener the bridge refresher (when present) is started inline with
`?`, and every vault refresher's `start_listening` future is awaited, any
error being propagated to the caller (and from `run` in src/main.rs out of
the process). We model each refresher by its `Refresher` state paired with
the tick input its immediate first refresh will observe, and sequentialize
the awaits; the result is `Ok` exactly when every individual start is. -/

/-- The start-time inputs of one `Listener`: the optional bridge refresher
and the vault refreshers, each with the responses of its first refresh. -/
structure ListenerStart where
  bridge : Option (Refresher BridgeState × BridgeTick)
  vaults : List (Refresher VaultState × VaultTick)

/-- Await the vault `start_listening` futures, propagating the first error
(`Failed to start listener` context in the source). -/
def startVaults : List (Refresher VaultState × VaultTick) → Except CallErr Unit
  | [] => .ok ()
  | (r, t) :: rest =>
    match (startListening vaultStep t r).1 with
    | .ok () => startVaults rest
    | .error e => .error e

/-- Start one listener's refreshers: the bridge first (inline `?`), then the
vaults. -/
def startNetwork (l : ListenerStart) : Except CallErr Unit :=
  match l.bridge with
  | some (r, t) =>
    match (startListening bridgeStep t r).1 with
    | .ok () => startVaults l.vaults
    | .error e => .error e
  | none => startVaults l.vaults

/-- `Service::start_listening` over all listeners. -/
def Service.start_listening : List ListenerStart → Except CallErr Unit
  | [] => .ok ()
  | l :: rest =>
    match startNetwork l with
    | .ok () => Service.start_listening rest
    | .error e => .error e

/-! ## Claims -/

/-- C8: for every unsigned timestamp `t`, `withdrawal_period t` is `t / 86400`
by pure integer (truncating) division — characterized by
`86400 * wp t ≤ t < 86400 * (wp t + 1)` — and in particular
`withdrawal_period 86399 = 0`, `withdrawal_period 86400 = 1`,
`withdrawal_period 172800 = 2`. -/
theorem withdrawal_period_is_integer_division :
    withdrawal_period 86399 = 0 ∧ withdrawal_period 86400 = 1 ∧
    withdrawal_period 172800 = 2 ∧
    ∀ t : Nat, withdrawal_period t = t / 86400 ∧
      86400 * withdrawal_period t ≤ t ∧ t < 86400 * (withdrawal_period t + 1) := by
  refine ⟨rfl, rfl, rfl, fun t => ⟨rfl, ?_, ?_⟩⟩ <;> · unfold withdrawal_period; omega

/-- C3: registering the same `(chain_id, address)` pair twice fails exactly
the second time: the first `add_vault` succeeds and inserts the pair, the
second returns the duplicate-vault error and leaves the registry unchanged. -/
theorem register_vault_twice_fails_second (ctx : InitializationContext)
    (cid : Nat) (a : String) (h : (cid, a) ∉ ctx.unique_vaults) :
    (ctx.add_vault cid a).1 = .ok () ∧
    (cid, a) ∈ ((ctx.add_vault cid a).2).unique_vaults ∧
    ((ctx.add_vault cid a).2).add_vault cid a =
      (.error "Duplicate vault entry", (ctx.add_vault cid a).2) := by
  have h1 : ctx.add_vault cid a =
      (.ok (), { ctx with unique_vaults := (cid, a) :: ctx.unique_vaults }) := by
    simp [InitializationContext.add_vault, h]
  refine ⟨by rw [h1], ?_, ?_⟩
  · rw [h1]; exact List.mem_cons_self _ _
  · rw [h1]; simp [InitializationContext.add_vault]

/-- C3 witness: a concrete double registration. -/
theorem register_vault_twice_fails_second_witness :
    (1, "aa") ∉ (default : InitializationContext).unique_vaults ∧
    (((default : InitializationContext).add_vault 1 "aa").1 = .ok () ∧
      (1, "aa") ∈ (((default : InitializationContext).add_vault 1 "aa").2).unique_vaults ∧
      (((default : InitializationContext).add_vault 1 "aa").2).add_vault 1 "aa" =
        (.error "Duplicate vault entry", ((default : InitializationContext).add_vault 1 "aa").2)) :=
  ⟨by decide, register_vault_twice_fails_second default 1 "aa" (by decide)⟩

/-- C4: `add_token_group` succeeds and records the label on a first
registration; succeeds idempotently (leaving the context untouched) on any
later registration carrying the recorded label; fails with the
inconsistent-group error on any registration carrying a different label,
leaving the context — hence the recorded label — unchanged. -/
theorem register_token_group_semantics (ctx : InitializationContext)
    (cid : Nat) (t g g' : String) :
    (findGroup ctx.token_groups (cid, t) = none →
      (ctx.add_token_group cid t g).1 = .ok () ∧
      findGroup ((ctx.add_token_group cid t g).2).token_groups (cid, t) = some g) ∧
    (findGroup ctx.token_groups (cid, t) = some g →
      ctx.add_token_group cid t g = (.ok (), ctx)) ∧
    (findGroup ctx.token_groups (cid, t) = some g → g' ≠ g →
      ctx.add_token_group cid t g' = (.error "Inconsistent token group", ctx) ∧
      findGroup ((ctx.add_token_group cid t g').2).token_groups (cid, t) = some g) := by
  refine ⟨fun hnone => ?_, fun hrec => ?_, fun hrec hne => ?_⟩
  · simp [InitializationContext.add_token_group, hnone, findGroup]
  · simp [InitializationContext.add_token_group, hrec]
  · have hgg : ¬g = g' := fun hc => hne hc.symm
    simp [InitializationContext.add_token_group, hrec, hgg]

/-- C4 witness: a concrete first registration, idempotent repeat, and
conflicting repeat (on the context produced by the first registration). -/
theorem register_token_group_semantics_witness :
    (((default : InitializationContext).add_token_group 1 "tt" "usdt").1 = .ok () ∧
      findGroup (((default : InitializationContext).add_token_group 1 "tt" "usdt").2).token_groups
        (1, "tt") = some "usdt") ∧
    (((default : InitializationContext).add_token_group 1 "tt" "usdt").2).add_token_group
        1 "tt" "usdt" =
      (.ok (), ((default : InitializationContext).add_token_group 1 "tt" "usdt").2) ∧
    (((default : InitializationContext).add_token_group 1 "tt" "usdt").2).add_token_group
        1 "tt" "dai" =
      (.error "Inconsistent token group",
        ((default : InitializationContext).add_token_group 1 "tt" "usdt").2) :=
  ⟨(register_token_group_semantics default 1 "tt" "usdt" "dai").1 (by decide),
    (register_token_group_semantics
      ((default : InitializationContext).add_token_group 1 "tt" "usdt").2
      1 "tt" "usdt" "dai").2.1 (by decide),
    ((register_token_group_semantics
      ((default : InitializationContext).add_token_group 1 "tt" "usdt").2
      1 "tt" "usdt" "dai").2.2 (by decide) (by decide)).1⟩

/-- C1 counterexample: a bridge tick can fail (its relay-count call errors)
and still change the published `BridgeState`: starting from round 2 /
relay count 30, a tick fetching round 8 whose relay-count call fails returns
an error, yet leaves `current_round = 8` — only some fields were updated. -/
theorem failing_bridge_tick_changes_state :
    exceptOk (BridgeListener.update
      ⟨.ok 8, fun _ => .error .invalidOutput⟩ ⟨2, 30⟩).1 = false ∧
    (BridgeListener.update
      ⟨.ok 8, fun _ => .error .invalidOutput⟩ ⟨2, 30⟩).2.1 ≠ (⟨2, 30⟩ : BridgeState) ∧
    (BridgeListener.update
      ⟨.ok 8, fun _ => .error .invalidOutput⟩ ⟨2, 30⟩).2.1 = (⟨8, 30⟩ : BridgeState) := by
  refine ⟨rfl, ?_, rfl⟩
  intro h
  exact absurd (congrArg BridgeState.current_round h) (by decide)

/-- C1 (amended): a failed vault tick leaves every field of the previous
`VaultState` unchanged, and a successful vault tick replaces every field
together from the fetched values — the vault refresher never publishes
partially. The bridge refresher leaves `BridgeState` untouched when the round
fetch fails, but a tick in which the round advanced and the relay-count call
failed updates `current_round` alone, keeping the previous `relay_count`. -/
theorem tick_publish_all_or_nothing :
    (∀ (tick : VaultTick) (st : VaultState) (e : CallErr),
      VaultListener.update tick = .error e → VaultListener.published tick st = st) ∧
    (∀ (tick : VaultTick) (st : VaultState) (b ta wl wt wc : Nat),
      tick.balance = .ok b → tick.total_assets = .ok ta → tick.withdraw_limit = .ok wl →
      tick.withdrawal_period_stats (withdrawal_period tick.now) = .ok (wt, wc) →
      VaultListener.published tick st =
        ⟨tick.now, Nat.repr b, Nat.repr ta, Nat.repr wl, Nat.repr wt, Nat.repr wc⟩) ∧
    (∀ (tick : BridgeTick) (st : BridgeState) (e : CallErr),
      tick.last_round = .error e → BridgeListener.update tick st = (.error e, st, 0)) ∧
    (∀ (tick : BridgeTick) (st : BridgeState) (r : Nat) (e : CallErr),
      tick.last_round = .ok r → st.current_round ≠ r → tick.relay_count_for r = .error e →
      BridgeListener.update tick st = (.error e, ⟨r, st.relay_count⟩, 1)) := by
  refine ⟨fun tick st e h => ?_, fun tick st b ta wl wt wc hb hta hwl hwp => ?_,
    fun tick st e h => ?_, fun tick st r e h hne hfail => ?_⟩
  · simp [VaultListener.published, h]
  · simp [VaultListener.published, VaultListener.update, hb, hta, hwl, hwp, bind, Except.bind, pure, Except.pure]
  · simp [BridgeListener.update, h]
  · simp [BridgeListener.update, h, hne, hfail]

/-- C1 witness: the amended theorem applied to a concrete failed vault tick
(its balance call errors) and a concrete successful vault tick. -/
theorem tick_publish_all_or_nothing_witness :
    VaultListener.update
      ⟨50, .error .invalidOutput, .ok 1, .ok 2, fun _ => .ok (3, 4)⟩ =
        .error .invalidOutput ∧
    VaultListener.published
      ⟨50, .error .invalidOutput, .ok 1, .ok 2, fun _ => .ok (3, 4)⟩
      ⟨7, "b", "t", "l", "wt", "wc"⟩ = ⟨7, "b", "t", "l", "wt", "wc"⟩ ∧
    VaultListener.published ⟨50, .ok 11, .ok 12, .ok 13, fun _ => .ok (14, 15)⟩
      ⟨7, "b", "t", "l", "wt", "wc"⟩ = ⟨50, "11", "12", "13", "14", "15"⟩ :=
  ⟨by decide,
    tick_publish_all_or_nothing.1
      ⟨50, .error .invalidOutput, .ok 1, .ok 2, fun _ => .ok (3, 4)⟩
      ⟨7, "b", "t", "l", "wt", "wc"⟩ .invalidOutput (by decide),
    tick_publish_all_or_nothing.2.1
      ⟨50, .ok 11, .ok 12, .ok 13, fun _ => .ok (14, 15)⟩
      ⟨7, "b", "t", "l", "wt", "wc"⟩ 11 12 13 14 15 rfl rfl rfl rfl⟩

/-- C2: a vault whose state still carries the `updated_at == 0` sentinel
contributes no entries to the rendered output (removing it from a listener
changes nothing), and after one successful tick it appears with `balance`,
`total_assets`, `withdraw_limit_per_period`, `withdrawal_period_total` and
`withdrawal_period_considered` rendered byte-for-byte as `Nat.repr` of the
fetched 256-bit integers — the stored decimal strings pass through
`PrintedNum` unchanged, never through a native numeric type. -/
theorem vault_metrics_exact_rendering :
    (∀ (chain_id : Nat) (v : VaultListener), v.state.updated_at = 0 →
      renderVault chain_id v = []) ∧
    (∀ (cid : Nat) (bl : Option BridgeListener) (vs₁ vs₂ : List VaultListener)
        (v : VaultListener), v.state.updated_at = 0 →
      Metrics.render [⟨cid, bl, vs₁ ++ v :: vs₂⟩] = Metrics.render [⟨cid, bl, vs₁ ++ vs₂⟩]) ∧
    (∀ (tick : VaultTick) (b ta wl wt wc : Nat) (v : VaultListener) (cid : Nat),
      tick.now ≠ 0 →
      b < 2 ^ 256 → ta < 2 ^ 256 → wl < 2 ^ 256 → wt < 2 ^ 256 → wc < 2 ^ 256 →
      tick.balance = .ok b → tick.total_assets = .ok ta → tick.withdraw_limit = .ok wl →
      tick.withdrawal_period_stats (withdrawal_period tick.now) = .ok (wt, wc) →
      ∃ st', VaultListener.update tick = .ok st' ∧
        renderVault cid { v with state := st' } =
          [ ⟨"balance", [("chain_id", Nat.repr cid), ("vault", fullAddress v.vault),
              ("token", fullAddress v.token)], Nat.repr b⟩,
            ⟨"total_assets", [("chain_id", Nat.repr cid), ("vault", fullAddress v.vault),
              ("token", fullAddress v.token)], Nat.repr ta⟩,
            ⟨"withdraw_limit_per_period", [("chain_id", Nat.repr cid),
              ("vault", fullAddress v.vault), ("token", fullAddress v.token)], Nat.repr wl⟩,
            ⟨"withdrawal_period_total", [("chain_id", Nat.repr cid),
              ("vault", fullAddress v.vault), ("token", fullAddress v.token),
              ("withdrawal_period", Nat.repr (withdrawal_period tick.now))], Nat.repr wt⟩,
            ⟨"withdrawal_period_considered", [("chain_id", Nat.repr cid),
              ("vault", fullAddress v.vault), ("token", fullAddress v.token),
              ("withdrawal_period", Nat.repr (withdrawal_period tick.now))], Nat.repr wc⟩,
            ⟨"updated_at", [("chain_id", Nat.repr cid), ("vault", fullAddress v.vault)],
              Nat.repr tick.now⟩ ]) := by
  have hempty : ∀ (chain_id : Nat) (v : VaultListener), v.state.updated_at = 0 →
      renderVault chain_id v = [] := by
    intro chain_id v h
    simp [renderVault, h]
  refine ⟨hempty, fun cid bl vs₁ vs₂ v h => ?_,
    fun tick b ta wl wt wc v cid hnow hb256 hta256 hwl256 hwt256 hwc256 hb hta hwl hwp => ?_⟩
  · simp [Metrics.render, renderListener, hempty cid v h]
  · refine ⟨⟨tick.now, Nat.repr b, Nat.repr ta, Nat.repr wl, Nat.repr wt, Nat.repr wc⟩, ?_, ?_⟩
    · simp [VaultListener.update, hb, hta, hwl, hwp, bind, Except.bind, pure, Except.pure]
    · simp [renderVault, hnow, PrintedNum]

/-- C2 witness: a concrete successful tick fetching the 30-digit balance
`123456789012345678901234567890`; its rendered `balance` entry carries that
exact digit string, and a sentinel-state vault renders nothing. -/
theorem vault_metrics_exact_rendering_witness :
    renderVault 1 ⟨"aaaa", "bbbb", ⟨"USDT", 6⟩, default⟩ = [] ∧
    (∃ st', VaultListener.update
        ⟨1700000000, .ok 123456789012345678901234567890, .ok 1, .ok 2,
          fun _ => .ok (3, 4)⟩ = .ok st' ∧
      renderVault 1 ⟨"aaaa", "bbbb", ⟨"USDT", 6⟩, st'⟩ =
        [ ⟨"balance", [("chain_id", Nat.repr 1), ("vault", fullAddress "aaaa"),
            ("token", fullAddress "bbbb")], Nat.repr 123456789012345678901234567890⟩,
          ⟨"total_assets", [("chain_id", Nat.repr 1), ("vault", fullAddress "aaaa"),
            ("token", fullAddress "bbbb")], Nat.repr 1⟩,
          ⟨"withdraw_limit_per_period", [("chain_id", Nat.repr 1), ("vault", fullAddress "aaaa"),
            ("token", fullAddress "bbbb")], Nat.repr 2⟩,
          ⟨"withdrawal_period_total", [("chain_id", Nat.repr 1), ("vault", fullAddress "aaaa"),
            ("token", fullAddress "bbbb"),
            ("withdrawal_period", Nat.repr (withdrawal_period 1700000000))], Nat.repr 3⟩,
          ⟨"withdrawal_period_considered", [("chain_id", Nat.repr 1),
            ("vault", fullAddress "aaaa"), ("token", fullAddress "bbbb"),
            ("withdrawal_period", Nat.repr (withdrawal_period 1700000000))], Nat.repr 4⟩,
          ⟨"updated_at", [("chain_id", Nat.repr 1), ("vault", fullAddress "aaaa")],
            Nat.repr 1700000000⟩ ]) ∧
    Nat.repr 123456789012345678901234567890 = "123456789012345678901234567890" ∧
    VaultListener.published
      ⟨1700000000, .ok 123456789012345678901234567890, .ok 1, .ok 2,
        fun _ => .ok (3, 4)⟩ default = ⟨1700000000, "123456789012345678901234567890",
        "1", "2", "3", "4"⟩ :=
  ⟨vault_metrics_exact_rendering.1 1 ⟨"aaaa", "bbbb", ⟨"USDT", 6⟩, default⟩ rfl,
    vault_metrics_exact_rendering.2.2
      ⟨1700000000, .ok 123456789012345678901234567890, .ok 1, .ok 2, fun _ => .ok (3, 4)⟩
      123456789012345678901234567890 1 2 3 4 ⟨"aaaa", "bbbb", ⟨"USDT", 6⟩, default⟩ 1
      (by decide) (by norm_num) (by norm_num) (by norm_num) (by norm_num) (by norm_num)
      rfl rfl rfl rfl,
    by decide, by decide⟩

/-! ### Registry invariants across startup (C5) -/

/-- `add_vault` never touches the token-group map. -/
theorem add_vault_token_groups (ctx : InitializationContext) (cid : Nat) (a : String) :
    ((ctx.add_vault cid a).2).token_groups = ctx.token_groups := by
  unfold InitializationContext.add_vault
  split <;> rfl

/-- `set_has_bridge_proxy` never touches the token-group map. -/
theorem set_has_bridge_proxy_token_groups (ctx : InitializationContext) :
    (ctx.set_has_bridge_proxy.2).token_groups = ctx.token_groups := by
  unfold InitializationContext.set_has_bridge_proxy
  split <;> rfl

/-- Equation: `add_token_group` on a vacant entry records the group. -/
theorem add_token_group_vacant (ctx : InitializationContext) (cid : Nat) (t g : String)
    (hf : findGroup ctx.token_groups (cid, t) = none) :
    ctx.add_token_group cid t g =
      (.ok (), { ctx with token_groups := ((cid, t), g) :: ctx.token_groups }) := by
  simp only [InitializationContext.add_token_group, hf]

/-- Equation: `add_token_group` on an occupied entry with the same group is a
successful no-op. -/
theorem add_token_group_occupied_eq (ctx : InitializationContext) (cid : Nat) (t g : String)
    (hf : findGroup ctx.token_groups (cid, t) = some g) :
    ctx.add_token_group cid t g = (.ok (), ctx) := by
  simp [InitializationContext.add_token_group, hf]

/-- Equation: `add_token_group` on an occupied entry with a different group
fails and changes nothing. -/
theorem add_token_group_occupied_ne (ctx : InitializationContext) (cid : Nat)
    (t recorded g : String) (hf : findGroup ctx.token_groups (cid, t) = some recorded)
    (hne : recorded ≠ g) :
    ctx.add_token_group cid t g = (.error "Inconsistent token group", ctx) := by
  simp [InitializationContext.add_token_group, hf, hne]

/-- `add_token_group` never removes or overwrites an existing binding. -/
theorem add_token_group_preserves (ctx : InitializationContext) (cid : Nat)
    (t g : String) (k : Nat × String) (g0 : String)
    (h : findGroup ctx.token_groups k = some g0) :
    findGroup (((ctx.add_token_group cid t g).2).token_groups) k = some g0 := by
  cases hf : findGroup ctx.token_groups (cid, t) with
  | none =>
    rw [add_token_group_vacant ctx cid t g hf]
    have hk : (cid, t) ≠ k := by
      intro he
      rw [he] at hf
      rw [hf] at h
      cases h
    simp only [findGroup, if_neg hk]
    exact h
  | some recorded =>
    by_cases hrec : recorded = g
    · subst hrec
      rw [add_token_group_occupied_eq ctx cid t recorded hf]
      exact h
    · rw [add_token_group_occupied_ne ctx cid t recorded g hf hrec]
      exact h

/-- A successful `add_token_group` leaves the registered label bound. -/
theorem add_token_group_records (ctx ctx' : InitializationContext) (cid : Nat)
    (t g : String) (h : ctx.add_token_group cid t g = (.ok (), ctx')) :
    findGroup ctx'.token_groups (cid, t) = some g := by
  cases hf : findGroup ctx.token_groups (cid, t) with
  | none =>
    rw [add_token_group_vacant ctx cid t g hf] at h
    simp only [Prod.mk.injEq] at h
    rw [← h.2]
    simp [findGroup]
  | some recorded =>
    by_cases hrec : recorded = g
    · subst hrec
      rw [add_token_group_occupied_eq ctx cid t recorded hf] at h
      simp only [Prod.mk.injEq] at h
      rw [← h.2]
      exact hf
    · rw [add_token_group_occupied_ne ctx cid t recorded g hf hrec] at h
      simp at h

/-- `addVaults` never touches the token-group map. -/
theorem addVaults_token_groups (cid : Nat) :
    ∀ (vs : List VaultInit) (ctx ctx' : InitializationContext),
      addVaults cid ctx vs = .ok ctx' → ctx'.token_groups = ctx.token_groups
  | [], ctx, ctx', h => by
    simp only [addVaults, Except.ok.injEq] at h
    rw [← h]
  | v :: rest, ctx, ctx', h => by
    cases hv : ctx.add_vault cid v.address with
    | mk res ctx₁ =>
      cases res with
      | error e => simp [addVaults, hv] at h
      | ok u =>
        cases u
        simp only [addVaults, hv] at h
        rw [addVaults_token_groups cid rest ctx₁ ctx' h]
        have h2 := add_vault_token_groups ctx cid v.address
        rw [hv] at h2
        exact h2

/-- A successful `addGroups` pass preserves every existing binding. -/
theorem addGroups_preserves (cid : Nat) :
    ∀ (vs : List VaultInit) (ctx ctx' : InitializationContext)
      (k : Nat × String) (g0 : String),
      addGroups cid ctx vs = .ok ctx' → findGroup ctx.token_groups k = some g0 →
      findGroup ctx'.token_groups k = some g0
  | [], ctx, ctx', k, g0, h, hg => by
    simp only [addGroups, Except.ok.injEq] at h
    rw [← h]
    exact hg
  | v :: rest, ctx, ctx', k, g0, h, hg => by
    cases hgrp : v.group with
    | none =>
      simp only [addGroups, hgrp] at h
      exact addGroups_preserves cid rest ctx ctx' k g0 h hg
    | some g =>
      cases hadd : ctx.add_token_group cid v.token g with
      | mk res ctx₁ =>
        cases res with
        | error e => simp [addGroups, hgrp, hadd] at h
        | ok u =>
          cases u
          simp only [addGroups, hgrp, hadd] at h
          refine addGroups_preserves cid rest ctx₁ ctx' k g0 h ?_
          have h2 := add_token_group_preserves ctx cid v.token g k g0 hg
          rw [hadd] at h2
          exact h2

/-- After a successful `addGroups` pass every vault's declared label is bound
to its `(chain_id, token)` key. -/
theorem addGroups_records (cid : Nat) :
    ∀ (vs : List VaultInit) (ctx ctx' : InitializationContext) (v : VaultInit) (g : String),
      addGroups cid ctx vs = .ok ctx' → v ∈ vs → v.group = some g →
      findGroup ctx'.token_groups (cid, v.token) = some g
  | [], _, _, _, _, _, hv, _ => absurd hv (List.not_mem_nil _)
  | w :: rest, ctx, ctx', v, g, h, hv, hgrp => by
    rcases List.mem_cons.mp hv with hhead | htail
    · subst hhead
      cases hadd : ctx.add_token_group cid v.token g with
      | mk res ctx₁ =>
        cases res with
        | error e => simp [addGroups, hgrp, hadd] at h
        | ok u =>
          cases u
          simp only [addGroups, hgrp, hadd] at h
          exact addGroups_preserves cid rest ctx₁ ctx' (cid, v.token) g h
            (add_token_group_records ctx ctx₁ cid v.token g hadd)
    · cases hgrpw : w.group with
      | none =>
        simp only [addGroups, hgrpw] at h
        exact addGroups_records cid rest ctx ctx' v g h htail hgrp
      | some gw =>
        cases hadd : ctx.add_token_group cid w.token gw with
        | mk res ctx₁ =>
          cases res with
          | error e => simp [addGroups, hgrpw, hadd] at h
          | ok u =>
            cases u
            simp only [addGroups, hgrpw, hadd] at h
            exact addGroups_records cid rest ctx₁ ctx' v g h htail hgrp

/-- A successful `bridgeInit` never touches the token-group map. -/
theorem bridgeInit_token_groups (ctx ctx₁ : InitializationContext) (b : Bool)
    (h : bridgeInit ctx b = .ok ctx₁) : ctx₁.token_groups = ctx.token_groups := by
  cases b with
  | false =>
    simp only [bridgeInit, Bool.false_eq_true, if_false, Except.ok.injEq] at h
    rw [← h]
  | true =>
    cases hs : ctx.set_has_bridge_proxy with
    | mk res ctx₂ =>
      cases res with
      | error e => simp [bridgeInit, hs] at h
      | ok u =>
        cases u
        simp only [bridgeInit, if_true, hs, Except.ok.injEq] at h
        rw [← h]
        have h2 := set_has_bridge_proxy_token_groups ctx
        rw [hs] at h2
        exact h2

/-- A successful `initNetwork` preserves every existing token-group
binding. -/
theorem initNetwork_preserves (ctx ctx' : InitializationContext) (n : NetworkInit)
    (k : Nat × String) (g0 : String) (h : initNetwork ctx n = .ok ctx')
    (hg : findGroup ctx.token_groups k = some g0) :
    findGroup ctx'.token_groups k = some g0 := by
  cases hb : bridgeInit ctx n.bridge with
  | error e => simp [initNetwork, hb] at h
  | ok ctx₁ =>
    cases ha : addVaults n.chain_id ctx₁ n.vaults with
    | error e => simp [initNetwork, hb, ha] at h
    | ok ctx₂ =>
      simp only [initNetwork, hb, ha] at h
      refine addGroups_preserves n.chain_id n.vaults ctx₂ ctx' k g0 h ?_
      rw [addVaults_token_groups n.chain_id n.vaults ctx₁ ctx₂ ha,
        bridgeInit_token_groups ctx ctx₁ n.bridge hb]
      exact hg

/-- After a successful `initNetwork`, every declared label of that network is
bound to its key. -/
theorem initNetwork_records (ctx ctx' : InitializationContext) (n : NetworkInit)
    (v : VaultInit) (g : String) (h : initNetwork ctx n = .ok ctx')
    (hv : v ∈ n.vaults) (hgrp : v.group = some g) :
    findGroup ctx'.token_groups (n.chain_id, v.token) = some g := by
  cases hb : bridgeInit ctx n.bridge with
  | error e => simp [initNetwork, hb] at h
  | ok ctx₁ =>
    cases ha : addVaults n.chain_id ctx₁ n.vaults with
    | error e => simp [initNetwork, hb, ha] at h
    | ok ctx₂ =>
      simp only [initNetwork, hb, ha] at h
      exact addGroups_records n.chain_id n.vaults ctx₂ ctx' v g h hv hgrp

/-- A successful `initAll` preserves every existing token-group binding. -/
theorem initAll_preserves :
    ∀ (networks : List NetworkInit) (ctx ctx' : InitializationContext)
      (k : Nat × String) (g0 : String),
      initAll ctx networks = .ok ctx' → findGroup ctx.token_groups k = some g0 →
      findGroup ctx'.token_groups k = some g0
  | [], ctx, ctx', k, g0, h, hg => by
    simp only [initAll, Except.ok.injEq] at h
    rw [← h]
    exact hg
  | n :: rest, ctx, ctx', k, g0, h, hg => by
    cases hn : initNetwork ctx n with
    | error e => simp [initAll, hn] at h
    | ok ctx₁ =>
      simp only [initAll, hn] at h
      exact initAll_preserves rest ctx₁ ctx' k g0 h
        (initNetwork_preserves ctx ctx₁ n k g0 hn hg)

/-- After a successful `initAll`, every declared label of the whole
configuration is bound to its `(chain_id, token)` key. -/
theorem initAll_records :
    ∀ (networks : List NetworkInit) (ctx ctx' : InitializationContext)
      (n : NetworkInit) (v : VaultInit) (g : String),
      initAll ctx networks = .ok ctx' → n ∈ networks → v ∈ n.vaults → v.group = some g →
      findGroup ctx'.token_groups (n.chain_id, v.token) = some g
  | [], _, _, _, _, _, _, hn, _, _ => absurd hn (List.not_mem_nil _)
  | m :: rest, ctx, ctx', n, v, g, h, hn, hv, hgrp => by
    cases hm : initNetwork ctx m with
    | error e => simp [initAll, hm] at h
    | ok ctx₁ =>
      simp only [initAll, hm] at h
      rcases List.mem_cons.mp hn with hhead | htail
      · subst hhead
        exact initAll_preserves rest ctx₁ ctx' (n.chain_id, v.token) g h
          (initNetwork_records ctx ctx₁ n v g hm hv hgrp)
      · exact initAll_records rest ctx₁ ctx' n v g h htail hv hgrp

/-- The configuration of the C5 counterexample: one network (chain id 1, no
bridge) holding the same token under two vaults — once with the group label
"usdt", once with no label at all. -/
def mixedGroupConfig : List NetworkInit :=
  [⟨1, false, [⟨"a1", "tok", some "usdt"⟩, ⟨"a2", "tok", none⟩]⟩]

/-- C5 counterexample: startup completes successfully on `mixedGroupConfig`,
yet the token "tok" appears once with a group label and once without one — so
its label is neither absent everywhere nor identical everywhere the token
appears. -/
theorem token_group_mixed_presence_passes_startup :
    exceptOk (initAll default mixedGroupConfig) = true ∧
    ¬ (∀ n₁ ∈ mixedGroupConfig, ∀ n₂ ∈ mixedGroupConfig,
        ∀ v₁ ∈ n₁.vaults, ∀ v₂ ∈ n₂.vaults,
        n₁.chain_id = n₂.chain_id → v₁.token = v₂.token → v₁.group = v₂.group) :=
  ⟨by decide, by decide⟩

/-- C5 (amended): for every configuration whose startup registry phase
completes successfully, any two vault entries that declare a group label for
the same `(chain_id, token)` key declare the same label (a token may still
appear with a label on one vault and without one on another); by
contraposition, a configuration carrying two conflicting labels for one key
fails startup. -/
theorem token_groups_consistent_after_startup (ctx ctx' : InitializationContext)
    (networks : List NetworkInit) (h : initAll ctx networks = .ok ctx')
    (n₁ n₂ : NetworkInit) (hn₁ : n₁ ∈ networks) (hn₂ : n₂ ∈ networks)
    (v₁ v₂ : VaultInit) (hv₁ : v₁ ∈ n₁.vaults) (hv₂ : v₂ ∈ n₂.vaults)
    (hcid : n₁.chain_id = n₂.chain_id) (htok : v₁.token = v₂.token)
    (g₁ g₂ : String) (hg₁ : v₁.group = some g₁) (hg₂ : v₂.group = some g₂) :
    g₁ = g₂ ∧ findGroup ctx'.token_groups (n₁.chain_id, v₁.token) = some g₁ := by
  have h1 := initAll_records networks ctx ctx' n₁ v₁ g₁ h hn₁ hv₁ hg₁
  have h2 := initAll_records networks ctx ctx' n₂ v₂ g₂ h hn₂ hv₂ hg₂
  rw [← hcid, ← htok] at h2
  rw [h1] at h2
  exact ⟨Option.some.inj h2, h1⟩

/-- C5 witness: two networks on chain 1 declaring the same token with the
same label pass startup, and the theorem yields the recorded binding. -/
theorem token_groups_consistent_after_startup_witness :
    initAll default
        [⟨1, false, [⟨"a1", "tok", some "usdt"⟩]⟩,
          ⟨1, true, [⟨"a2", "tok", some "usdt"⟩]⟩] =
      .ok ⟨true, [(1, "a2"), (1, "a1")], [((1, "tok"), "usdt")]⟩ ∧
    ("usdt" = "usdt" ∧
      findGroup [((1, "tok"), "usdt")] (1, "tok") = some "usdt") :=
  ⟨by decide,
    token_groups_consistent_after_startup default
      ⟨true, [(1, "a2"), (1, "a1")], [((1, "tok"), "usdt")]⟩
      [⟨1, false, [⟨"a1", "tok", some "usdt"⟩]⟩, ⟨1, true, [⟨"a2", "tok", some "usdt"⟩]⟩]
      (by decide)
      ⟨1, false, [⟨"a1", "tok", some "usdt"⟩]⟩ ⟨1, true, [⟨"a2", "tok", some "usdt"⟩]⟩
      (by decide) (by decide)
      ⟨"a1", "tok", some "usdt"⟩ ⟨"a2", "tok", some "usdt"⟩
      (by decide) (by decide) rfl rfl "usdt" "usdt" rfl rfl⟩

/-- C6 counterexample: a tick fetching round 7 over stored round 3 performs
exactly one relay-count call, but that call fails, so the tick publishes only
`current_round`: `relay_count` keeps its old value 42 and there is no fetched
relay count it could publish — the tick does not publish both fields. -/
theorem relay_round_change_without_relay_publish :
    (BridgeListener.update ⟨.ok 7, fun _ => .error (.transport "timeout")⟩ ⟨3, 42⟩).2.2 = 1 ∧
    BridgeListener.update ⟨.ok 7, fun _ => .error (.transport "timeout")⟩ ⟨3, 42⟩ =
      (.error (.transport "timeout"), ⟨7, 42⟩, 1) ∧
    (⟨3, 42⟩ : BridgeState).relay_count = 42 :=
  ⟨rfl, rfl, rfl⟩

/-- C6 (amended): given a successful round fetch `r`: if `r` equals the
stored round, the tick performs no relay-count call and leaves `relay_count`
and `current_round` unchanged; if `r` differs, the tick performs exactly one
relay-count call and publishes `current_round`; it publishes `relay_count`
too when that call succeeds, while on failure `relay_count` keeps its
previous value. -/
theorem bridge_relay_call_count (tick : BridgeTick) (st : BridgeState) (r : Nat)
    (hr : tick.last_round = .ok r) :
    (st.current_round = r → BridgeListener.update tick st = (.ok (), st, 0)) ∧
    (st.current_round ≠ r →
      (BridgeListener.update tick st).2.2 = 1 ∧
      (BridgeListener.update tick st).2.1.current_round = r ∧
      (∀ c, tick.relay_count_for r = .ok c →
        BridgeListener.update tick st = (.ok (), ⟨r, c⟩, 1)) ∧
      (∀ e, tick.relay_count_for r = .error e →
        BridgeListener.update tick st = (.error e, ⟨r, st.relay_count⟩, 1))) := by
  refine ⟨fun heq => ?_, fun hne => ?_⟩
  · subst heq
    simp [BridgeListener.update, hr]
  · cases hrel : tick.relay_count_for r with
    | ok c => simp [BridgeListener.update, hr, hne, hrel]
    | error e => simp [BridgeListener.update, hr, hne, hrel]

/-- C6 witness: a stable-round tick makes no relay call; a round-change tick
makes one and publishes both fields. -/
theorem bridge_relay_call_count_witness :
    BridgeListener.update ⟨.ok 5, fun _ => .ok 9⟩ ⟨5, 4⟩ = (.ok (), ⟨5, 4⟩, 0) ∧
    BridgeListener.update ⟨.ok 5, fun _ => .ok 9⟩ ⟨2, 4⟩ = (.ok (), ⟨5, 9⟩, 1) :=
  ⟨(bridge_relay_call_count ⟨.ok 5, fun _ => .ok 9⟩ ⟨5, 4⟩ 5 rfl).1 rfl,
    ((bridge_relay_call_count ⟨.ok 5, fun _ => .ok 9⟩ ⟨2, 4⟩ 5 rfl).2
      (by decide)).2.2.1 9 rfl⟩

/-- C7 counterexample: after a round advance (5 → 6) whose relay-count call
failed, the very next tick succeeds (it returns `Ok`) while the round is
stable at 6, yet `relay_count` is NOT refreshed — it stays 10 instead of the
now-fetchable 99, because a stable round skips the relay-count call. -/
theorem relay_count_stale_after_next_successful_tick :
    BridgeListener.update ⟨.ok 6, fun _ => .error .invalidOutput⟩ ⟨5, 10⟩ =
      (.error .invalidOutput, ⟨6, 10⟩, 1) ∧
    BridgeListener.update ⟨.ok 6, fun _ => .ok 99⟩ ⟨6, 10⟩ = (.ok (), ⟨6, 10⟩, 0) ∧
    (BridgeListener.update ⟨.ok 6, fun _ => .ok 99⟩ ⟨6, 10⟩).2.1.relay_count ≠ 99 :=
  ⟨rfl, rfl, by decide⟩

/-- C7 (amended): when the round advances and the relay-count call fails, the
stored round already reflects the new value (it is swapped before the fetch
is attempted) and `relay_count` keeps its stale value; it stays stale through
round-stable ticks (even successful ones) and is refreshed at the next
successful tick whose fetched round differs from the stored one. -/
theorem bridge_round_survives_relay_failure (tick₁ tick₂ : BridgeTick)
    (st : BridgeState) (r : Nat) (e : CallErr)
    (h1 : tick₁.last_round = .ok r) (hne : st.current_round ≠ r)
    (hfail : tick₁.relay_count_for r = .error e) :
    BridgeListener.update tick₁ st = (.error e, ⟨r, st.relay_count⟩, 1) ∧
    (tick₂.last_round = .ok r →
      BridgeListener.update tick₂ ⟨r, st.relay_count⟩ =
        (.ok (), ⟨r, st.relay_count⟩, 0)) ∧
    (∀ r₂ c₂, tick₂.last_round = .ok r₂ → r₂ ≠ r → tick₂.relay_count_for r₂ = .ok c₂ →
      BridgeListener.update tick₂ ⟨r, st.relay_count⟩ = (.ok (), ⟨r₂, c₂⟩, 1)) := by
  refine ⟨?_, fun h2 => ?_, fun r₂ c₂ h2 hne₂ hok => ?_⟩
  · simp [BridgeListener.update, h1, hne, hfail]
  · simp [BridgeListener.update, h2]
  · have hne₂' : r ≠ r₂ := fun hc => hne₂ hc.symm
    simp [BridgeListener.update, h2, hne₂', hok]

/-- C7 witness: round advances 5 → 6 with a failing relay call, a stable tick
keeps the stale count, and a later round change to 8 refreshes it. -/
theorem bridge_round_survives_relay_failure_witness :
    BridgeListener.update ⟨.ok 6, fun _ => .error (.transport "down")⟩ ⟨5, 10⟩ =
      (.error (.transport "down"), ⟨6, 10⟩, 1) ∧
    BridgeListener.update ⟨.ok 8, fun _ => .ok 77⟩ ⟨6, 10⟩ = (.ok (), ⟨8, 77⟩, 1) :=
  ⟨(bridge_round_survives_relay_failure ⟨.ok 6, fun _ => .error (.transport "down")⟩
      ⟨.ok 8, fun _ => .ok 77⟩ ⟨5, 10⟩ 6 (.transport "down") rfl (by decide) rfl).1,
    (bridge_round_survives_relay_failure ⟨.ok 6, fun _ => .error (.transport "down")⟩
      ⟨.ok 8, fun _ => .ok 77⟩ ⟨5, 10⟩ 6 (.transport "down") rfl (by decide) rfl).2.2
      8 77 rfl (by decide) rfl⟩

/-- C9: starting a fresh refresher twice results in exactly one active
polling loop. When the first `start_listening` returns `Ok` it has spawned
the single periodic loop; the second call observes the already-set latch and
returns `Ok` immediately as a no-op — it performs no state refresh (zero
`update` invocations), changes nothing, and never schedules a second loop.
The statement is generic over the tick function, covering both the vault and
the bridge refresher. -/
theorem start_twice_single_loop {σ ι : Type} (upd : ι → σ → Except CallErr Unit × σ)
    (t₁ t₂ : ι) (r : Refresher σ)
    (hfresh : r.listening = false) (hloops : r.loops = 0)
    (hok : (startListening upd t₁ r).1 = .ok ()) :
    ((startListening upd t₁ r).2.1).loops = 1 ∧
    startListening upd t₂ (startListening upd t₁ r).2.1 =
      (.ok (), (startListening upd t₁ r).2.1, 0) := by
  cases hu : upd t₁ r.state with
  | mk res s' =>
    cases res with
    | error e => simp [startListening, hfresh, hu] at hok
    | ok u =>
      cases u
      simp [startListening, hfresh, hu, hloops]

/-- C9 witness: a fresh vault refresher started twice on a successful first
tick: one loop after the first call, and the second call is an `Ok` no-op. -/
theorem start_twice_single_loop_witness :
    ((startListening vaultStep ⟨100, .ok 1, .ok 2, .ok 3, fun _ => .ok (4, 5)⟩
      ⟨false, 0, default⟩).2.1).loops = 1 ∧
    startListening vaultStep ⟨100, .ok 1, .ok 2, .ok 3, fun _ => .ok (4, 5)⟩
        (startListening vaultStep ⟨100, .ok 1, .ok 2, .ok 3, fun _ => .ok (4, 5)⟩
          ⟨false, 0, default⟩).2.1 =
      (.ok (), (startListening vaultStep ⟨100, .ok 1, .ok 2, .ok 3, fun _ => .ok (4, 5)⟩
        ⟨false, 0, default⟩).2.1, 0) :=
  start_twice_single_loop vaultStep
    ⟨100, .ok 1, .ok 2, .ok 3, fun _ => .ok (4, 5)⟩
    ⟨100, .ok 1, .ok 2, .ok 3, fun _ => .ok (4, 5)⟩
    ⟨false, 0, default⟩ rfl rfl (by decide)

/-- `startVaults` succeeds exactly when every vault refresher's start does. -/
theorem startVaults_ok_iff :
    ∀ vs : List (Refresher VaultState × VaultTick),
      startVaults vs = .ok () ↔
        ∀ p ∈ vs, (startListening vaultStep p.2 p.1).1 = .ok ()
  | [] => by simp [startVaults]
  | (r, t) :: rest => by
    cases hs : (startListening vaultStep t r).1 with
    | ok u =>
      cases u
      simp only [startVaults, hs]
      rw [startVaults_ok_iff rest, List.forall_mem_cons]
      simp [hs]
    | error e =>
      simp only [startVaults, hs]
      rw [List.forall_mem_cons]
      simp [hs]

/-- `startNetwork` succeeds exactly when the bridge start (when configured)
and every vault start succeed. -/
theorem startNetwork_ok_iff (l : ListenerStart) :
    startNetwork l = .ok () ↔
      ((∀ rb tb, l.bridge = some (rb, tb) →
          (startListening bridgeStep tb rb).1 = .ok ()) ∧
        ∀ p ∈ l.vaults, (startListening vaultStep p.2 p.1).1 = .ok ()) := by
  cases hb : l.bridge with
  | none => simp [startNetwork, hb, startVaults_ok_iff l.vaults]
  | some p =>
    obtain ⟨rb, tb⟩ := p
    cases hs : (startListening bridgeStep tb rb).1 with
    | ok u =>
      cases u
      simp [startNetwork, hb, hs, startVaults_ok_iff l.vaults]
    | error e =>
      simp [startNetwork, hb, hs]

/-- `Service::start_listening` succeeds exactly when every listener's starts
succeed. -/
theorem service_start_ok_iff :
    ∀ ls : List ListenerStart,
      Service.start_listening ls = .ok () ↔ ∀ l ∈ ls, startNetwork l = .ok ()
  | [] => by simp [Service.start_listening]
  | l :: rest => by
    cases hn : startNetwork l with
    | ok u =>
      cases u
      simp only [Service.start_listening, hn]
      rw [service_start_ok_iff rest, List.forall_mem_cons]
      simp [hn]
    | error e =>
      simp only [Service.start_listening, hn]
      rw [List.forall_mem_cons]
      simp [hn]

/-- C10: a fresh `start_listening` performs exactly one immediate refresh;
when that refresh fails, the error is returned and no periodic loop is
spawned (the loop counter is untouched); `Service::start_listening` returns
`Ok` exactly when every refresher's start returned `Ok`, so one failing first
refresh fails the whole service start. Failures on later ticks, by contrast,
are absorbed by the loop: `runLoop` always proceeds to the next tick with the
state the failed iteration left behind. -/
theorem first_refresh_failure_aborts_start {σ ι : Type}
    (upd : ι → σ → Except CallErr Unit × σ) (t : ι) (r : Refresher σ)
    (hfresh : r.listening = false) :
    (startListening upd t r).2.2 = 1 ∧
    (∀ e s', upd t r.state = (.error e, s') →
      startListening upd t r = (.error e, ⟨true, r.loops, s'⟩, 1)) ∧
    (∀ ls : List ListenerStart, Service.start_listening ls = .ok () ↔
      ∀ l ∈ ls,
        ((∀ rb tb, l.bridge = some (rb, tb) →
            (startListening bridgeStep tb rb).1 = .ok ()) ∧
          ∀ p ∈ l.vaults, (startListening vaultStep p.2 p.1).1 = .ok ())) ∧
    (∀ (ts : List ι) (t' : ι) (s : σ),
      runLoop upd (t' :: ts) s = runLoop upd ts (loopIter upd t' s)) := by
  refine ⟨?_, fun e s' hu => ?_, fun ls => ?_, fun ts t' s => rfl⟩
  · cases hu : upd t r.state with
    | mk res s' =>
      cases res with
      | ok u =>
        cases u
        simp [startListening, hfresh, hu]
      | error e => simp [startListening, hfresh, hu]
  · simp [startListening, hfresh, hu]
  · rw [service_start_ok_iff ls]
    exact forall_congr' fun l => imp_congr_right fun _ => startNetwork_ok_iff l

/-- C10 witness: a vault refresher whose first refresh fails (decode failure
on the balance call) aborts its start without spawning a loop, and a service
holding only that refresher fails to start with the same error. -/
theorem first_refresh_failure_aborts_start_witness :
    (startListening vaultStep ⟨9, .error .invalidOutput, .ok 0, .ok 0, fun _ => .ok (0, 0)⟩
      ⟨false, 0, default⟩).2.2 = 1 ∧
    startListening vaultStep ⟨9, .error .invalidOutput, .ok 0, .ok 0, fun _ => .ok (0, 0)⟩
        ⟨false, 0, default⟩ =
      (.error .invalidOutput, ⟨true, 0, default⟩, 1) ∧
    Service.start_listening
        [⟨none, [(⟨false, 0, default⟩,
          ⟨9, .error .invalidOutput, .ok 0, .ok 0, fun _ => .ok (0, 0)⟩)]⟩] =
      .error .invalidOutput :=
  ⟨(first_refresh_failure_aborts_start vaultStep
      ⟨9, .error .invalidOutput, .ok 0, .ok 0, fun _ => .ok (0, 0)⟩
      ⟨false, 0, default⟩ rfl).1,
    (first_refresh_failure_aborts_start vaultStep
      ⟨9, .error .invalidOutput, .ok 0, .ok 0, fun _ => .ok (0, 0)⟩
      ⟨false, 0, default⟩ rfl).2.1 .invalidOutput default rfl,
    by decide⟩

end BridgeVaultsExporter
